import Mathlib

/-!
Verification development for the XAI_MBTI voice round-trip pipeline.

This file shallowly embeds the orchestration and client logic of
`audio_service.py`, `chat_service.py` and `app.py`:

* pure decision logic (language → model id, language → provider, error-string
  matching, history bookkeeping) is translated directly into Lean functions;
* effectful code is made explicit: network behaviour is an oracle value passed
  in as an environment, and temporary-file creation/deletion is threaded
  through a small file-system state (`FS`) so that cleanup claims become
  statements about the set of live temporary files.

Definitions follow the Python source line by line; environment fields stand
for the outcomes of the external calls (token fetch, HTTP requests, file
reads/writes) that the source branches on.
-/

namespace XaiMbti

/-! ## File-system state for temporary files

`tempfile.NamedTemporaryFile(delete=False, ...)` allocates a fresh file which
stays on disk until an explicit `os.unlink`.  We track live temporary files by
numeric id. -/

/-- The file-system state visible to the audio service: a counter for fresh
temporary-file names and the list of temporary files currently on disk. -/
structure FS where
  nextId : Nat
  live : List Nat
  deriving Repr, DecidableEq

/-- `tempfile.NamedTemporaryFile(delete=False, ...)`: allocate a fresh
temporary file and record it as live. -/
def FS.alloc (s : FS) : Nat × FS :=
  (s.nextId, ⟨s.nextId + 1, s.live ++ [s.nextId]⟩)

/-- `os.unlink(path)`: remove a temporary file from the live set. -/
def FS.unlink (s : FS) (id : Nat) : FS :=
  ⟨s.nextId, s.live.filter (· ≠ id)⟩

/-- The empty file-system state. -/
def fs0 : FS := ⟨0, []⟩

/-! ## Audio inputs

The attributes of an on-disk audio file that `convert_to_wav` branches on:
its extension, whether `soundfile.sf.read` succeeds on it, its sample rate,
channel count and sample count, and whether the pydub conversion
(`AudioSegment.from_file` + `export`) would succeed. -/

/-- An audio file as seen by `AudioService.convert_to_wav`. -/
structure AudioFile where
  ext : String
  readable : Bool
  samplerate : Nat
  channels : Nat
  numSamples : Nat
  convertible : Bool
  deriving Repr, DecidableEq

/-- A `(sample_rate, samples)` pair handed to `asr_recognize_from_numpy`. -/
structure NumpyAudio where
  rate : Nat
  channels : Nat
  numSamples : Nat
  deriving Repr, DecidableEq

/-! ## convert_to_wav (audio_service.py lines 47-76) -/

/-- Result of `convert_to_wav`: the original path returned unchanged, a fresh
temporary wav produced by pydub, or `None` (conversion failure). -/
inductive ConvResult where
  | original
  | temp (id : Nat)
  | failed
  deriving Repr, DecidableEq

/-- `AudioService.convert_to_wav` (audio_service.py lines 47-76).

If the file has extension `.wav`, `sf.read` succeeds and the sample rate is
16000, the original path is returned unchanged (channel count and length are
not inspected).  Otherwise a temporary file is allocated with
`tempfile.NamedTemporaryFile(delete=False)` and pydub conversion is attempted:
on success the temporary path is returned, on an exception `None` is returned
(and the already-allocated temporary file is not removed). -/
def convert_to_wav (f : AudioFile) (s : FS) : ConvResult × FS :=
  if f.ext = ".wav" ∧ f.readable = true ∧ f.samplerate = 16000 then
    (ConvResult.original, s)
  else if f.convertible then (ConvResult.temp (s.alloc).1, (s.alloc).2)
  else (ConvResult.failed, (s.alloc).2)

/-- Sample rate of the audio actually handed onward for a given conversion
result: the original file's rate on pass-through, 16000 after pydub's
`set_frame_rate(16000)`, nothing on failure. -/
def resultRate (f : AudioFile) : ConvResult → Option Nat
  | ConvResult.original => some f.samplerate
  | ConvResult.temp _ => some 16000
  | ConvResult.failed => none

/-- Channel count of the audio handed onward: the original file's channels on
pass-through, 1 after pydub's `set_channels(1)`, nothing on failure. -/
def resultChannels (f : AudioFile) : ConvResult → Option Nat
  | ConvResult.original => some f.channels
  | ConvResult.temp _ => some 1
  | ConvResult.failed => none

/-- Sample count of the audio handed onward (pydub conversion keeps emptiness:
an empty input yields an empty output). -/
def resultSamples (f : AudioFile) : ConvResult → Option Nat
  | ConvResult.original => some f.numSamples
  | ConvResult.temp _ => some f.numSamples
  | ConvResult.failed => none

/-- Modelled from the spec's words (§4.1/§8, for comparison with the code):
the Audio Normalizer's output is "always mono, 16000Hz, non-empty, or a
`FormatError`". -/
def specNormalizerOk (f : AudioFile) (r : ConvResult) : Bool :=
  match r with
  | ConvResult.failed => true
  | _ =>
      resultRate f r == some 16000 && resultChannels f r == some 1 &&
        !(resultSamples f r == some 0)

/-! ## asr_recognize (audio_service.py lines 78-148) -/

/-- Outcome of the recognition POST to `https://vop.baidu.com/server_api`. -/
inductive AsrNet where
  | ok (transcript : String)
  | providerRejected
  | httpError
  | timeout
  | netException
  deriving Repr, DecidableEq

/-- Environment of one `asr_recognize` call: whether the Baidu token fetch
succeeds, whether reading the wav file back succeeds, and the network outcome
of the recognition request. -/
structure AsrEnv where
  tokenOk : Bool
  readOk : Bool
  net : AsrNet
  deriving Repr, DecidableEq

/-- Language → `dev_pid` selection inside `asr_recognize` (audio_service.py
lines 109-114): default 1737 (English model), `"Chinese"` → 1537,
`"English"` → 1737. -/
def asrDevPid (language : String) : Nat :=
  if language = "Chinese" then 1537
  else if language = "English" then 1737
  else 1737

/-- The JSON body POSTed to the recognition endpoint (audio_service.py lines
120-129): format `wav`, rate 16000, channel 1, and the language-selected
model id. -/
structure AsrRequest where
  format : String
  rate : Nat
  channel : Nat
  devPid : Nat
  deriving Repr, DecidableEq

/-- The recognition request built by `asr_recognize` for a given language. -/
def asrRequest (language : String) : AsrRequest :=
  { format := "wav", rate := 16000, channel := 1, devPid := asrDevPid language }

/-- Classification of the recognition response (audio_service.py lines
131-148): the first candidate transcript on success, one fixed error string
per failure kind otherwise. -/
def classifyAsrResponse : AsrNet → String
  | AsrNet.ok t => t
  | AsrNet.providerRejected => "Speech recognition failed"
  | AsrNet.httpError => "Speech recognition request failed"
  | AsrNet.timeout => "Speech recognition request timeout"
  | AsrNet.netException => "Speech recognition network request failed"

/-- Result of a Transcription Client call: the transcript-or-error string,
the resulting file-system state, and the recognition request that was POSTed
(`none` when the call never reached the network). -/
structure AsrOut where
  result : String
  fs : FS
  request : Option AsrRequest
  deriving Repr, DecidableEq

/-- `AudioService.asr_recognize` (audio_service.py lines 78-148).

Order of operations, as in the source: token fetch; `convert_to_wav`; read
the (possibly temporary) wav file — an early error return here skips the
cleanup; delete the temporary file if one was created; choose `dev_pid` from
the language; POST and classify the response. -/
def asr_recognize (f : AudioFile) (language : String) (env : AsrEnv) (s : FS) :
    AsrOut :=
  if env.tokenOk = false then ⟨"Unable to get Baidu access token", s, none⟩
  else
    match convert_to_wav f s with
    | (ConvResult.failed, s1) => ⟨"Audio format conversion failed", s1, none⟩
    | (ConvResult.original, s1) =>
        if env.readOk = false then ⟨"Failed to read audio file", s1, none⟩
        else ⟨classifyAsrResponse env.net, s1, some (asrRequest language)⟩
    | (ConvResult.temp id, s1) =>
        if env.readOk = false then ⟨"Failed to read audio file", s1, none⟩
        else ⟨classifyAsrResponse env.net, s1.unlink id, some (asrRequest language)⟩

/-- `AudioService.asr_recognize_from_numpy` (audio_service.py lines 150-177):
write the numpy data to a fresh temporary wav (`sf.write`), run
`asr_recognize` on it, and delete the temporary file in a `finally` block.
`writeOk` is whether `sf.write` succeeds; the written file is a readable
`.wav` at the given rate/channels that pydub can convert. -/
def asr_recognize_from_numpy (a : NumpyAudio) (language : String)
    (writeOk : Bool) (env : AsrEnv) (s : FS) : AsrOut :=
  if writeOk then
    let f : AudioFile :=
      { ext := ".wav", readable := true, samplerate := a.rate,
        channels := a.channels, numSamples := a.numSamples, convertible := true }
    let r := asr_recognize f language env (s.alloc).2
    ⟨r.result, r.fs.unlink (s.alloc).1, r.request⟩
  else
    ⟨"Audio data processing failed", ((s.alloc).2).unlink (s.alloc).1, none⟩

/-- The closed set of failure strings the Transcription Client
(`asr_recognize` / `asr_recognize_from_numpy`) can return. -/
def asrFailureStrings : List String :=
  ["Unable to get Baidu access token",
   "Audio format conversion failed",
   "Failed to read audio file",
   "Speech recognition failed",
   "Speech recognition request failed",
   "Speech recognition request timeout",
   "Speech recognition network request failed",
   "Audio data processing failed"]

/-! ## Speech synthesis (audio_service.py lines 179-420) -/

/-- One outbound network call of the Speech Synthesis Client: the Baidu token
endpoint, the Baidu `text2audio` endpoint (with the `lan` and `tex` request
parameters), or the Volcano `tts` endpoint (with the resolved language code
and the sanitized text). -/
inductive TtsCall where
  | baiduToken
  | baiduTts (lan tex : String)
  | volcanoTts (langCode text : String)
  deriving Repr, DecidableEq

/-- Whether a network call targets the Volcano endpoint. -/
def isVolcanoCall : TtsCall → Bool
  | TtsCall.volcanoTts _ _ => true
  | _ => false

/-- The audio artifact a synthesis call can produce: a temporary `.mp3`
written from the Baidu response, or a file saved under `static/` from the
Volcano response. -/
inductive TtsFile where
  | baiduTemp
  | volcanoStatic
  deriving Repr, DecidableEq

/-- Environment of one synthesis call: whether the Baidu token fetch succeeds,
whether the Baidu response has an `audio/*` content type, and whether the
Volcano request yields a saved audio file (collapsing its several
success/failure shapes, none of which the claims depend on). -/
structure TtsEnv where
  tokenOk : Bool
  baiduAudioCT : Bool
  volcanoOk : Bool
  deriving Repr, DecidableEq

/-- Result of a synthesis call: the artifact (or `None`) and the list of
network calls performed, in order. -/
structure TtsOut where
  result : Option TtsFile
  calls : List TtsCall
  deriving Repr, DecidableEq

/-- Python `int(...)` applied to a (here: rational) number: truncation toward
zero, as in `int(speed*5)` at audio_service.py line 328. -/
def pyInt (q : ℚ) : Int := q.num / (q.den : Int)

/-- Baidu language-code selection (audio_service.py lines 203-212): default
`en`; `Chinese` → `zh`; `English` → `en`; `Japanese`/`French` → `en`. -/
def baiduLan (language : String) : String :=
  if language = "Chinese" then "zh"
  else if language = "English" then "en"
  else if language = "Japanese" ∨ language = "French" then "en"
  else "en"

/-- Volcano language-code resolution (audio_service.py lines 261-271):
`Chinese` → `zh`, `English` → `en`, `Japanese` → `ja`, anything else → `en`. -/
def volcanoLangCode (language : String) : String :=
  if language = "Chinese" then "zh"
  else if language = "English" then "en"
  else if language = "Japanese" then "ja"
  else "en"

/-- Volcano voice selection (audio_service.py lines 273-282): an explicit
voice is kept; otherwise the voice is chosen from the language. -/
def volcanoVoice (language : String) : Option String → String
  | some v => v
  | none =>
      if language = "Chinese" then "BV700_streaming"
      else if language = "English" then "BV702_streaming"
      else if language = "Japanese" then "BV700_streaming"
      else "BV700_streaming"

/-- Python `str.strip()`: drop whitespace from both ends (modelled over the
character list so that it evaluates by kernel reduction). -/
def pyStrip (s : String) : String :=
  String.mk (((s.toList.dropWhile Char.isWhitespace).reverse.dropWhile
    Char.isWhitespace).reverse)

/-- Volcano text sanitation (audio_service.py lines 290-295): strip, then
remove control and invisible characters (`[\x00-\x1F\x7F-\x9F]`). -/
def volcanoSanitize (text : String) : String :=
  String.mk ((pyStrip text).toList.filter
    (fun c => !(c.toNat ≤ 0x1F || (0x7F ≤ c.toNat && c.toNat ≤ 0x9F))))

/-- The Baidu branch of `AudioService.tts_synthesize` (audio_service.py lines
198-236): fetch a token (a network call in itself); on token failure return
`None`; otherwise POST `text2audio` and return a temporary `.mp3` if the
response content type is `audio/*`, else `None`.  There is no empty-text
check on this path. -/
def baidu_tts_synthesize (text : String) (_spd _pit _vol _per : Int)
    (language : String) (env : TtsEnv) : TtsOut :=
  if env.tokenOk = false then ⟨none, [TtsCall.baiduToken]⟩
  else
    let lan := baiduLan language
    if env.baiduAudioCT then
      ⟨some TtsFile.baiduTemp, [TtsCall.baiduToken, TtsCall.baiduTts lan text]⟩
    else ⟨none, [TtsCall.baiduToken, TtsCall.baiduTts lan text]⟩

/-- `AudioService.volcano_tts_synthesize` (audio_service.py lines 238-420):
resolve the language code and voice; return `None` for empty/whitespace text
before any network call; for the resolved code `zh` delegate to the Baidu
path via `tts_synthesize(..., tts_engine="baidu", language="Chinese")`
(line 326-328); otherwise POST to the Volcano endpoint. -/
def volcano_tts_synthesize (text language : String) (voiceType : Option String)
    (speed pitch : ℚ) (env : TtsEnv) : TtsOut :=
  let langCode := volcanoLangCode language
  let _voice := volcanoVoice language voiceType
  if pyStrip text = "" then ⟨none, []⟩
  else
    let processed := volcanoSanitize text
    if langCode = "zh" then
      baidu_tts_synthesize text (pyInt (speed * 5)) (pyInt (pitch * 5)) 15 0
        "Chinese" env
    else if env.volcanoOk then
      ⟨some TtsFile.volcanoStatic, [TtsCall.volcanoTts langCode processed]⟩
    else ⟨none, [TtsCall.volcanoTts langCode processed]⟩

/-- `AudioService.tts_synthesize` (audio_service.py lines 179-236): dispatch
on the engine — `"volcano"` goes to `volcano_tts_synthesize`, everything else
takes the Baidu path. -/
def tts_synthesize (text : String) (spd pit vol per : Int)
    (ttsEngine language : String) (voiceType : Option String)
    (speed pitch : ℚ) (env : TtsEnv) : TtsOut :=
  if ttsEngine = "volcano" then
    volcano_tts_synthesize text language voiceType speed pitch env
  else baidu_tts_synthesize text spd pit vol per language env

/-! ## Dialogue client (chat_service.py lines 20-70) -/

/-- Conversation history as used throughout `app.py`: (user text, reply)
pairs, with `none` for a pending reply in the display history. -/
abbrev Hist := List (String × Option String)

/-- The structured result of `send_chat_request`: a dict with at least
`reply` (possibly absent on a raw 200 body), the history, and the model
path; the remaining fields (timestamp, session id) do not influence any
claim and are elided. -/
structure ChatResult where
  reply : Option String
  history : Hist
  loraPath : String
  deriving Repr, DecidableEq

/-- Outcome of the chat POST: a 200 response with a parsed JSON body, a 200
response whose body fails to parse (`response.json()` raises, caught by the
same `except`), a non-200 status, or a transport exception. -/
inductive ChatNet where
  | ok (body : ChatResult)
  | okBadJson
  | httpError
  | exn
  deriving Repr, DecidableEq

/-- Whether the chat POST came back as a 200 with a parseable body. -/
def isOkNet : ChatNet → Bool
  | ChatNet.ok _ => true
  | _ => false

/-- Fallback reply on a non-200 status (chat_service.py line 56). -/
def apologyHttp : String := "API request failed, please try again later"

/-- Fallback reply on a request exception (chat_service.py line 65). -/
def apologyExn : String :=
  "Error occurred while sending request, please check network connection"

/-- `ChatService.send_chat_request` (chat_service.py lines 20-70): POST the
payload; on 200 return the parsed body; on non-200 or on any exception return
a structured fallback dict echoing the inputs with a fixed apology reply.
Every branch returns a `ChatResult` — no exception escapes. -/
def send_chat_request (_message : String) (history : Hist) (loraPath : String)
    (net : ChatNet) : ChatResult :=
  match net with
  | ChatNet.ok body => body
  | ChatNet.okBadJson => ⟨some apologyExn, history, loraPath⟩
  | ChatNet.httpError => ⟨some apologyHttp, history, loraPath⟩
  | ChatNet.exn => ⟨some apologyExn, history, loraPath⟩

/-! ## Session Orchestrator (app.py) -/

/-- The audio argument of `handle_chat`: a file path (with the result of the
`os.path.isfile` check and the file's attributes), a `(rate, data)` tuple, or
an unsupported value. -/
inductive AudioArg where
  | path (isFile : Bool) (f : AudioFile)
  | tuple (a : NumpyAudio)
  | unsupported
  deriving Repr, DecidableEq

/-- Environment of one orchestrator turn: the ASR call environment, whether
the audio-processing block raises (temp copy / `sf.write`) and the exception
text, the chat network outcome, the synthesis environment, whether the
synthesized file exists on disk, whether the copy into `static/` succeeds,
and the values read back from the synthesized file for the upload path. -/
structure OrchEnv where
  asr : AsrEnv
  procExn : Bool
  exnMsg : String
  chat : ChatNet
  tts : TtsEnv
  ttsFileExists : Bool
  copyOk : Bool
  readAudioOk : Bool
  outRate : Nat
  outLen : Nat
  deriving Repr, DecidableEq

/-- `<audio controls style='display:none;'></audio>` used in the error rows
of `handle_chat` when no input-audio path is available. -/
def hiddenAudioHtml : String := "<audio controls style=\x27display:none;\x27></audio>"

/-- The saved copy of the user's audio input,
`static/audio_input_{timestamp}.wav` (the timestamp token is elided — no
claim depends on it). -/
def inputAudioPath : String := "static/audio_input.wav"

/-- The hidden-player row shown for an audio input error,
`<audio src='/{audio_path}' ...>` (app.py line 246). -/
def audioSrcHtml (path : String) : String :=
  "<audio src=\x27/" ++ path ++ "\x27 controls style=\x27display:none;\x27></audio>"

/-- The path under `static/` the reply audio is served from after the copy at
app.py lines 366-382 (the concrete file name does not influence any claim). -/
def staticReplyPath : String := "static/tts_reply.mp3"

/-- The error-string list `error_messages` of `handle_chat` (app.py lines
233-242). -/
def handleChatErrorMessages : List String :=
  ["Speech recognition failed",
   "Speech recognition request failed",
   "Speech recognition request timeout",
   "Speech recognition network request failed",
   "Audio format conversion failed",
   "Failed to read audio file",
   "Audio data processing failed",
   "Unable to get Baidu access token"]

/-- Reply-language instruction suffix of `handle_chat` (app.py lines
272-281). -/
def chatLanguageSuffix (replyLang : String) : String :=
  if replyLang = "Chinese" then " "
  else if replyLang = "English" then " Please answer in English"
  else if replyLang = "Japanese" then " 日本語で答えてください"
  else " Please answer in English"

/-- Reply-language instruction suffix of `handle_upload` (app.py lines
427-438). -/
def uploadLanguageSuffix (replyLang : String) : String :=
  if replyLang = "Chinese" then " 请用中文回答"
  else if replyLang = "English" then " Please answer in English"
  else if replyLang = "Japanese" then " 日本語で答えてください"
  else if replyLang = "French" then " Veuillez répondre en français"
  else " Please answer in English"

/-- The history handed to the Dialogue Client (app.py lines 284 and 441):
the input history with the entries whose reply is `None` filtered out. -/
def committedPairs (history : Hist) : Hist :=
  history.filter (fun h => h.2.isSome)

/-- TTS dispatch of `handle_chat` (app.py lines 296-349): Chinese replies use
the Baidu engine with style-selected `spd`/`pit`/`per`; all other languages
use the Volcano engine with style-selected voice/speed/pitch. -/
def chatTts (ttsChoice replyLang reply : String) (env : TtsEnv) : TtsOut :=
  if replyLang = "Chinese" then
    if ttsChoice = "Soft Female Voice - Cancan (Normal)" then
      tts_synthesize reply 5 5 5 0 "baidu" replyLang none 1 1 env
    else if ttsChoice = "Energetic Female Voice - Cancan (Fast)" then
      tts_synthesize reply 7 6 5 0 "baidu" replyLang none 1 1 env
    else if ttsChoice = "Professional Foreign Voice - Stefan (Normal)" then
      tts_synthesize reply 5 5 5 1 "baidu" replyLang none 1 1 env
    else if ttsChoice = "Expressive Foreign Voice - Stefan (Fast)" then
      tts_synthesize reply 7 6 5 1 "baidu" replyLang none 1 1 env
    else tts_synthesize reply 5 5 5 0 "baidu" replyLang none 1 1 env
  else
    if ttsChoice = "Soft Female Voice - Cancan (Normal)" then
      tts_synthesize reply 5 5 5 0 "volcano" replyLang (some "BV700_streaming") 1 1 env
    else if ttsChoice = "Energetic Female Voice - Cancan (Fast)" then
      tts_synthesize reply 5 5 5 0 "volcano" replyLang (some "BV700_streaming") (13/10) (12/10) env
    else if ttsChoice = "Professional Foreign Voice - Stefan (Normal)" then
      tts_synthesize reply 5 5 5 0 "volcano" replyLang (some "BV702_streaming") 1 1 env
    else if ttsChoice = "Expressive Foreign Voice - Stefan (Fast)" then
      tts_synthesize reply 5 5 5 0 "volcano" replyLang (some "BV702_streaming") (13/10) (12/10) env
    else tts_synthesize reply 5 5 5 0 "volcano" replyLang (some "BV700_streaming") 1 1 env

/-- The four outputs of `handle_chat`, plus an instrumentation field
recording the `(message, history)` actually POSTed to the Dialogue Client
(`none` when the turn short-circuited before that call). -/
structure ChatTurnResult where
  display : Hist
  session : Hist
  audioOut : Option String
  clear : String
  dialogueCall : Option (String × Hist)
  deriving Repr, DecidableEq

/-- The reply text a completed `handle_chat` turn commits (app.py lines
287-290): the `reply` field of the dialogue response, or the default error
message when absent. -/
def chatReply (m : String) (history : Hist) (loraPath replyLang : String)
    (env : OrchEnv) : String :=
  (send_chat_request (m ++ chatLanguageSuffix replyLang) (committedPairs history)
      loraPath env.chat).reply.getD "Sorry, the server did not return a valid reply"

/-- The audio output of a completed `handle_chat` turn (app.py lines
357-388): the path under `static/` when synthesis produced a file that
exists and the copy succeeded, else `None`. -/
def chatAudioOut (ttsOut : TtsOut) (env : OrchEnv) : Option String :=
  if ttsOut.result.isSome ∧ env.ttsFileExists = true ∧ env.copyOk = true then
    some staticReplyPath
  else none

/-- The tail of `handle_chat` once the message text is known (app.py lines
256-388): empty-message early return; language suffix; history filtering;
dialogue call; reply extraction with default; TTS; display/session update;
audio copy into `static/`. -/
def handleChatCore (m : String) (history : Hist) (loraPath ttsChoice replyLang : String)
    (env : OrchEnv) : ChatTurnResult :=
  if pyStrip m = "" then ⟨history, history, none, "", none⟩
  else
    let mwlr := m ++ chatLanguageSuffix replyLang
    let chatHist := committedPairs history
    let reply := chatReply m history loraPath replyLang env
    let ttsOut := chatTts ttsChoice replyLang reply env.tts
    ⟨history ++ [(m, some reply)], chatHist ++ [(m, some reply)],
      chatAudioOut ttsOut env, "", some (mwlr, chatHist)⟩

/-- The audio-input branch of `handle_chat` (app.py lines 189-254) once the
input has been written to a readable wav file `f`: run `asr_recognize`; on an
empty or recognized-error result, short-circuit with a retry row; otherwise
continue with the transcript as the message. -/
def handleChatAsrBranch (f : AudioFile) (history : Hist)
    (loraPath ttsChoice replyLang asrLang : String) (env : OrchEnv) : ChatTurnResult :=
  let m := (asr_recognize f asrLang env.asr fs0).result
  if m = "" ∨ m ∈ handleChatErrorMessages then
    let errMsg := if m = "" then "Speech recognition failed" else m
    ⟨history ++ [(audioSrcHtml inputAudioPath, some (errMsg ++ ", please try again"))],
      history, none, "", none⟩
  else handleChatCore m history loraPath ttsChoice replyLang env

/-- `handle_chat` (app.py lines 161-388).  A non-`None` message (already
recognized text, or typed text) skips the audio branch entirely; otherwise
the audio input is validated, written out, recognized and checked against
`handleChatErrorMessages`; then the common tail runs. -/
def handle_chat (message : Option String) (history : Hist) (audio : Option AudioArg)
    (loraPath ttsChoice replyLang : String) (asrLang : Option String)
    (env : OrchEnv) : ChatTurnResult :=
  match message with
  | some m => handleChatCore m history loraPath ttsChoice replyLang env
  | none =>
    match audio with
    | none => ⟨history, history, none, "", none⟩
    | some arg =>
      let asrL := asrLang.getD replyLang
      match arg with
      | AudioArg.unsupported =>
          ⟨history ++ [(hiddenAudioHtml, some "Recording format error, please try again")],
            history, none, "", none⟩
      | AudioArg.path isFile f =>
          if isFile = false then
            ⟨history ++ [(hiddenAudioHtml, some "Invalid audio file")],
              history, none, "", none⟩
          else if env.procExn then
            ⟨history ++ [(audioSrcHtml inputAudioPath,
                some ("Error processing recording: " ++ env.exnMsg))],
              history, none, "", none⟩
          else handleChatAsrBranch f history loraPath ttsChoice replyLang asrL env
      | AudioArg.tuple a =>
          if env.procExn then
            ⟨history ++ [(audioSrcHtml inputAudioPath,
                some ("Error processing recording: " ++ env.exnMsg))],
              history, none, "", none⟩
          else
            let f : AudioFile :=
              { ext := ".wav", readable := true, samplerate := a.rate,
                channels := a.channels, numSamples := a.numSamples,
                convertible := true }
            handleChatAsrBranch f history loraPath ttsChoice replyLang asrL env

/-- The reply text a completed `handle_upload` turn commits (app.py lines
443-446). -/
def uploadReply (m : String) (history : Hist) (loraPath replyLang : String)
    (env : OrchEnv) : String :=
  (send_chat_request (m ++ uploadLanguageSuffix replyLang) (committedPairs history)
      loraPath env.chat).reply.getD "Sorry, the server did not return a valid reply"

/-- The recognition-failure check of `handle_upload` (app.py line 419): only
an empty result and three of the eight possible failure strings are matched. -/
def uploadAsrFailed (m : String) : Bool :=
  m == "" || m == "Speech recognition failed" ||
    m == "Speech recognition request failed" ||
    m == "Unable to get Baidu access token"

/-- The hidden-player row appended by `handle_upload` on a recognition
failure, `<audio src='{file.name}' ...>` (the uploaded file's name is
elided — no claim depends on it). -/
def uploadAudioHtml : String :=
  "<audio src=\x27upload.wav\x27 controls style=\x27display:none;\x27></audio>"

/-- TTS dispatch of `handle_upload` (app.py lines 448-463). -/
def uploadTts (ttsChoice replyLang reply : String) (env : TtsEnv) : TtsOut :=
  if ttsChoice = "Standard Voice" then
    tts_synthesize reply 5 5 5 0 "baidu" replyLang none 1 1 env
  else if ttsChoice = "Gentle Female Voice" then
    tts_synthesize reply 4 6 5 4 "baidu" replyLang none 1 1 env
  else if ttsChoice = "Energetic Male Voice" then
    tts_synthesize reply 6 6 5 3 "baidu" replyLang none 1 1 env
  else if ttsChoice = "Volcano Engine TTS" then
    tts_synthesize reply 5 5 5 0 "volcano" replyLang none 1 1 env
  else tts_synthesize reply 5 5 5 0 "baidu" replyLang none 1 1 env

/-- The shape of a `handle_upload` return: a 2-tuple on the early paths, the
declared 4-tuple (display, session, audio value, clear string) on success. -/
inductive UploadShape where
  | pair2 (display session : Hist)
  | quad (display session : Hist) (audioVal : Nat × Nat) (clear : String)
  deriving Repr, DecidableEq

/-- `handle_upload`'s result plus the instrumented Dialogue-Client call. -/
structure UploadOut where
  ret : UploadShape
  dialogueCall : Option (String × Hist)
  deriving Repr, DecidableEq

/-- The `(samplerate, data)` value `handle_upload` hands to the audio widget
(app.py lines 468-510): data read back from the synthesized file when it
exists and is readable, else `(16000, zeros(1000))`. -/
def uploadAudioValue (hasFile : Bool) (env : OrchEnv) : Nat × Nat :=
  if hasFile && env.readAudioOk then (env.outRate, env.outLen) else (16000, 1000)

/-- `handle_upload` (app.py lines 391-513): 2-tuple `(history, history)` when
the file is `None`; run `asr_recognize` on the uploaded file; 2-tuple with a
retry row when the result matches `uploadAsrFailed`; otherwise dialogue call,
TTS, and the 4-tuple return. -/
def handle_upload (file : Option AudioFile) (history : Hist)
    (loraPath ttsChoice replyLang asrLang : String) (env : OrchEnv) : UploadOut :=
  match file with
  | none => ⟨UploadShape.pair2 history history, none⟩
  | some f =>
      let m := (asr_recognize f asrLang env.asr fs0).result
      if uploadAsrFailed m then
        ⟨UploadShape.pair2
          (history ++ [(uploadAudioHtml, some "Speech recognition failed, please try again")])
          history, none⟩
      else
        let mwlr := m ++ uploadLanguageSuffix replyLang
        let chatHist := committedPairs history
        let reply := uploadReply m history loraPath replyLang env
        let ttsOut := uploadTts ttsChoice replyLang reply env.tts
        let hasFile := ttsOut.result.isSome && env.ttsFileExists
        ⟨UploadShape.quad (history ++ [(m, some reply)]) (chatHist ++ [(m, some reply)])
            (uploadAudioValue hasFile env) "",
          some (mwlr, chatHist)⟩

/-- The session-history component of a `handle_upload` return shape. -/
def uploadSession : UploadShape → Hist
  | UploadShape.pair2 _ s => s
  | UploadShape.quad _ s _ _ => s

/-- Well-formedness of a committed history: every entry has a non-empty user
text and a present reply. -/
def wellFormedHist (h : Hist) : Bool :=
  h.all (fun p => !(p.1 == "") && p.2.isSome)

/-- A file-system state is well formed when every live temporary file was
allocated under the current counter. -/
def FS.wf (s : FS) : Bool := s.live.all (fun x => x < s.nextId)

/-! ## Helper lemmas -/

lemma filter_ne_eq_self (l : List Nat) (n : Nat)
    (h : l.all (fun x => decide (x < n)) = true) :
    l.filter (fun x => decide (x ≠ n)) = l := by
  induction l with
  | nil => rfl
  | cons a t ih =>
      simp only [List.all_cons, Bool.and_eq_true, decide_eq_true_eq] at h
      have ha : (decide (a ≠ n)) = true := by
        simp only [decide_eq_true_eq]; omega
      simp only [List.filter_cons, ha, if_true]
      rw [ih h.2]

lemma wf_alloc (s : FS) (h : s.wf = true) : (s.alloc).2.wf = true := by
  simp only [FS.wf, FS.alloc, List.all_eq_true, decide_eq_true_eq] at h ⊢
  intro x hx
  rcases List.mem_append.mp hx with hx | hx
  · exact Nat.lt_succ_of_lt (h x hx)
  · simp only [List.mem_singleton] at hx
    omega

lemma unlink_alloc_live (s : FS) (h : s.wf = true) :
    (((s.alloc).2).unlink (s.alloc).1).live = s.live := by
  have h2 : (s.live.all fun x => decide (x < s.nextId)) = true := h
  show (List.filter (fun x => decide (x ≠ s.nextId)) (s.live ++ [s.nextId])) = s.live
  rw [List.filter_append, filter_ne_eq_self s.live s.nextId h2]
  simp

lemma committedPairs_all_some (h : Hist) :
    ∀ q ∈ committedPairs h, q.2.isSome = true := by
  intro q hq
  simp only [committedPairs, List.mem_filter] at hq
  exact hq.2

lemma committedPairs_wf (h : Hist) (hw : wellFormedHist h = true) :
    wellFormedHist (committedPairs h) = true := by
  simp only [wellFormedHist, List.all_eq_true] at hw ⊢
  intro q hq
  simp only [committedPairs, List.mem_filter] at hq
  exact hw q hq.1

lemma committedPairs_append_some (h : Hist) (m : String) (r : String) :
    committedPairs (h ++ [(m, some r)]) = committedPairs h ++ [(m, some r)] := by
  simp [committedPairs]

lemma committedPairs_idem (h : Hist) :
    committedPairs (committedPairs h) = committedPairs h := by
  simp only [committedPairs, List.filter_filter, Bool.and_self]

lemma wellFormedHist_append (h : Hist) (m : String) (r : Option String)
    (hw : wellFormedHist h = true) (hm : (m == "") = false) (hr : r.isSome = true) :
    wellFormedHist (h ++ [(m, r)]) = true := by
  simp only [wellFormedHist, List.all_append, Bool.and_eq_true] at hw ⊢
  exact ⟨hw, by simp [hm, hr]⟩

lemma strip_ne_beq (m : String) (h : pyStrip m ≠ "") : (m == "") = false := by
  rcases hq : (m == "") with _ | _
  · rfl
  · exact absurd (by rw [eq_of_beq hq]; rfl) h

lemma asr_request_cases (f : AudioFile) (lang : String) (env : AsrEnv) (s : FS) :
    (asr_recognize f lang env s).request = none ∨
    (asr_recognize f lang env s).request = some (asrRequest lang) := by
  unfold asr_recognize
  repeat' split
  all_goals first
    | exact Or.inl rfl
    | exact Or.inr rfl

lemma asr_result_cases (f : AudioFile) (lang : String) (env : AsrEnv) (s : FS) :
    (asr_recognize f lang env s).result ∈ asrFailureStrings ∨
    ∃ t, env.net = AsrNet.ok t ∧ (asr_recognize f lang env s).result = t := by
  obtain ⟨tok, rd, net⟩ := env
  unfold asr_recognize
  rcases net with t | _ | _ | _ | _ <;> repeat' split
  all_goals simp [classifyAsrResponse, asrFailureStrings]

lemma handleChatCore_empty (m : String) (history : Hist) (lp tc rl : String)
    (env : OrchEnv) (h : pyStrip m = "") :
    handleChatCore m history lp tc rl env = ⟨history, history, none, "", none⟩ := by
  unfold handleChatCore
  rw [if_pos h]

lemma handleChatCore_done (m : String) (history : Hist) (lp tc rl : String)
    (env : OrchEnv) (h : pyStrip m ≠ "") :
    handleChatCore m history lp tc rl env =
      ⟨history ++ [(m, some (chatReply m history lp rl env))],
        committedPairs history ++ [(m, some (chatReply m history lp rl env))],
        chatAudioOut (chatTts tc rl (chatReply m history lp rl env) env.tts) env, "",
        some (m ++ chatLanguageSuffix rl, committedPairs history)⟩ := by
  unfold handleChatCore
  rw [if_neg h]

lemma handleChatAsrBranch_cases (f : AudioFile) (history : Hist)
    (lp tc rl al : String) (env : OrchEnv) :
    ((handleChatAsrBranch f history lp tc rl al env).session = history ∧
      (handleChatAsrBranch f history lp tc rl al env).dialogueCall = none) ∨
    (∃ m r, (m == "") = false ∧
      (handleChatAsrBranch f history lp tc rl al env).session =
        committedPairs history ++ [(m, some r)] ∧
      (handleChatAsrBranch f history lp tc rl al env).dialogueCall =
        some (m ++ chatLanguageSuffix rl, committedPairs history)) := by
  unfold handleChatAsrBranch
  by_cases h : (asr_recognize f al env.asr fs0).result = "" ∨
      (asr_recognize f al env.asr fs0).result ∈ handleChatErrorMessages
  · rw [if_pos h]
    exact Or.inl ⟨rfl, rfl⟩
  · rw [if_neg h]
    by_cases hp : pyStrip (asr_recognize f al env.asr fs0).result = ""
    · rw [handleChatCore_empty _ _ _ _ _ _ hp]
      exact Or.inl ⟨rfl, rfl⟩
    · rw [handleChatCore_done _ _ _ _ _ _ hp]
      exact Or.inr ⟨_, _, strip_ne_beq _ hp, rfl, rfl⟩

lemma handleChatCore_cases (m : String) (history : Hist) (lp tc rl : String)
    (env : OrchEnv) :
    ((handleChatCore m history lp tc rl env).session = history ∧
      (handleChatCore m history lp tc rl env).dialogueCall = none) ∨
    (∃ m' r, (m' == "") = false ∧
      (handleChatCore m history lp tc rl env).session =
        committedPairs history ++ [(m', some r)] ∧
      (handleChatCore m history lp tc rl env).dialogueCall =
        some (m' ++ chatLanguageSuffix rl, committedPairs history)) := by
  by_cases hp : pyStrip m = ""
  · rw [handleChatCore_empty _ _ _ _ _ _ hp]
    exact Or.inl ⟨rfl, rfl⟩
  · rw [handleChatCore_done _ _ _ _ _ _ hp]
    exact Or.inr ⟨m, _, strip_ne_beq _ hp, rfl, rfl⟩

lemma handle_chat_some (m : String) (history : Hist) (audio : Option AudioArg)
    (lp tc rl : String) (al : Option String) (env : OrchEnv) :
    handle_chat (some m) history audio lp tc rl al env =
      handleChatCore m history lp tc rl env := rfl

lemma handle_chat_noaudio (history : Hist) (lp tc rl : String)
    (al : Option String) (env : OrchEnv) :
    handle_chat none history none lp tc rl al env =
      ⟨history, history, none, "", none⟩ := rfl

lemma handle_chat_unsupported (history : Hist) (lp tc rl : String)
    (al : Option String) (env : OrchEnv) :
    handle_chat none history (some AudioArg.unsupported) lp tc rl al env =
      ⟨history ++ [(hiddenAudioHtml, some "Recording format error, please try again")],
        history, none, "", none⟩ := rfl

lemma handle_chat_path (isFile : Bool) (f : AudioFile) (history : Hist)
    (lp tc rl : String) (al : Option String) (env : OrchEnv) :
    handle_chat none history (some (AudioArg.path isFile f)) lp tc rl al env =
      (if isFile = false then
        ⟨history ++ [(hiddenAudioHtml, some "Invalid audio file")],
          history, none, "", none⟩
      else if env.procExn then
        ⟨history ++ [(audioSrcHtml inputAudioPath,
            some ("Error processing recording: " ++ env.exnMsg))],
          history, none, "", none⟩
      else handleChatAsrBranch f history lp tc rl (al.getD rl) env) := rfl

lemma handle_chat_tuple (a : NumpyAudio) (history : Hist)
    (lp tc rl : String) (al : Option String) (env : OrchEnv) :
    handle_chat none history (some (AudioArg.tuple a)) lp tc rl al env =
      (if env.procExn then
        ⟨history ++ [(audioSrcHtml inputAudioPath,
            some ("Error processing recording: " ++ env.exnMsg))],
          history, none, "", none⟩
      else handleChatAsrBranch
        { ext := ".wav", readable := true, samplerate := a.rate,
          channels := a.channels, numSamples := a.numSamples, convertible := true }
        history lp tc rl (al.getD rl) env) := rfl

lemma handle_chat_cases (message : Option String) (history : Hist)
    (audio : Option AudioArg) (lp tc rl : String) (al : Option String)
    (env : OrchEnv) :
    ((handle_chat message history audio lp tc rl al env).session = history ∧
      (handle_chat message history audio lp tc rl al env).dialogueCall = none) ∨
    (∃ m r, (m == "") = false ∧
      (handle_chat message history audio lp tc rl al env).session =
        committedPairs history ++ [(m, some r)] ∧
      (handle_chat message history audio lp tc rl al env).dialogueCall =
        some (m ++ chatLanguageSuffix rl, committedPairs history)) := by
  match message, audio with
  | some m, audio =>
      rw [handle_chat_some]
      exact handleChatCore_cases m history lp tc rl env
  | none, none =>
      rw [handle_chat_noaudio]
      exact Or.inl ⟨rfl, rfl⟩
  | none, some AudioArg.unsupported =>
      rw [handle_chat_unsupported]
      exact Or.inl ⟨rfl, rfl⟩
  | none, some (AudioArg.path isFile f) =>
      rw [handle_chat_path]
      by_cases h1 : isFile = false
      · rw [if_pos h1]
        exact Or.inl ⟨rfl, rfl⟩
      · rw [if_neg h1]
        by_cases h2 : env.procExn
        · rw [if_pos h2]
          exact Or.inl ⟨rfl, rfl⟩
        · rw [if_neg h2]
          exact handleChatAsrBranch_cases f history lp tc rl (al.getD rl) env
  | none, some (AudioArg.tuple a) =>
      rw [handle_chat_tuple]
      by_cases h2 : env.procExn
      · rw [if_pos h2]
        exact Or.inl ⟨rfl, rfl⟩
      · rw [if_neg h2]
        exact handleChatAsrBranch_cases _ history lp tc rl (al.getD rl) env

lemma uploadAsrFailed_false_ne (m : String) (h : uploadAsrFailed m = false) :
    (m == "") = false := by
  unfold uploadAsrFailed at h
  rcases hq : (m == "") with _ | _
  · rfl
  · rw [hq] at h
    simp at h

lemma handle_upload_failed (f : AudioFile) (history : Hist)
    (lp tc rl al : String) (env : OrchEnv)
    (h : uploadAsrFailed (asr_recognize f al env.asr fs0).result = true) :
    handle_upload (some f) history lp tc rl al env =
      ⟨UploadShape.pair2
        (history ++ [(uploadAudioHtml, some "Speech recognition failed, please try again")])
        history, none⟩ := by
  unfold handle_upload
  simp only [h, if_true]

lemma handle_upload_ok (f : AudioFile) (history : Hist)
    (lp tc rl al : String) (env : OrchEnv)
    (h : uploadAsrFailed (asr_recognize f al env.asr fs0).result = false) :
    handle_upload (some f) history lp tc rl al env =
      ⟨UploadShape.quad
        (history ++ [((asr_recognize f al env.asr fs0).result,
          some (uploadReply (asr_recognize f al env.asr fs0).result history lp rl env))])
        (committedPairs history ++ [((asr_recognize f al env.asr fs0).result,
          some (uploadReply (asr_recognize f al env.asr fs0).result history lp rl env))])
        (uploadAudioValue
          ((uploadTts tc rl (uploadReply (asr_recognize f al env.asr fs0).result history lp rl env)
              env.tts).result.isSome && env.ttsFileExists) env) ""
        , some ((asr_recognize f al env.asr fs0).result ++ uploadLanguageSuffix rl,
            committedPairs history)⟩ := by
  unfold handle_upload
  simp only [h, Bool.false_eq_true, if_false]

lemma convert_to_wav_cases (f : AudioFile) (s : FS) (hc : f.convertible = true) :
    convert_to_wav f s = (ConvResult.original, s) ∨
    convert_to_wav f s = (ConvResult.temp (s.alloc).1, (s.alloc).2) := by
  unfold convert_to_wav
  by_cases h : f.ext = ".wav" ∧ f.readable = true ∧ f.samplerate = 16000
  · rw [if_pos h]
    exact Or.inl rfl
  · rw [if_neg h, if_pos hc]
    exact Or.inr rfl

lemma filter_append_singleton (s : FS) (hs : s.wf = true) :
    (s.live ++ [s.nextId]).filter (fun x => decide (x ≠ s.nextId)) = s.live := by
  rw [List.filter_append, filter_ne_eq_self s.live s.nextId hs]
  simp

lemma asr_live_eq (f : AudioFile) (language : String) (env : AsrEnv) (s : FS)
    (hs : s.wf = true) (hr : env.readOk = true) (hc : f.convertible = true) :
    (asr_recognize f language env s).fs.live = s.live := by
  unfold asr_recognize
  by_cases ht : env.tokenOk = false
  · rw [if_pos ht]
  · rw [if_neg ht]
    rcases convert_to_wav_cases f s hc with hcv | hcv <;> rw [hcv]
    · show (if env.readOk = false then (⟨"Failed to read audio file", s, none⟩ : AsrOut)
        else ⟨classifyAsrResponse env.net, s, some (asrRequest language)⟩).fs.live = s.live
      rw [if_neg (by simp [hr])]
    · show (if env.readOk = false then
          (⟨"Failed to read audio file", (s.alloc).2, none⟩ : AsrOut)
        else ⟨classifyAsrResponse env.net, ((s.alloc).2).unlink (s.alloc).1,
          some (asrRequest language)⟩).fs.live = s.live
      rw [if_neg (by simp [hr])]
      exact unlink_alloc_live s hs

lemma failure_mem_chat_errors (m : String) (h : m ∈ asrFailureStrings) :
    m ∈ handleChatErrorMessages := by
  simp only [asrFailureStrings, List.mem_cons, List.not_mem_nil, or_false] at h
  rcases h with h | h | h | h | h | h | h | h <;> subst h <;> decide

/-! ## Claims -/

/-- C1: the claim states that for every audio input the Audio Normalizer
yields a mono 16000 Hz non-empty WAV or a `FormatError`, and that an input
whose sample rate or channel count does not match mono/16 kHz is never
returned unconverted.  Counterexample: a readable 16 kHz `.wav` file with
two channels is returned unconverted by `convert_to_wav` (the pass-through
at audio_service.py lines 55-59 checks only the sample rate), so the result
is neither mono nor a failure. -/
theorem C1_counterexample :
    (convert_to_wav ⟨".wav", true, 16000, 2, 100, true⟩ fs0).1 = ConvResult.original ∧
    specNormalizerOk ⟨".wav", true, 16000, 2, 100, true⟩
      (convert_to_wav ⟨".wav", true, 16000, 2, 100, true⟩ fs0).1 = false ∧
    resultChannels ⟨".wav", true, 16000, 2, 100, true⟩
      (convert_to_wav ⟨".wav", true, 16000, 2, 100, true⟩ fs0).1 ≠ some 1 := by
  decide

/-- C1 (amended): `convert_to_wav` returns its input unconverted only when
the input is a readable `.wav` whose sample rate is already 16000 Hz (its
channel count and length are not checked, so a 16 kHz stereo or empty WAV
passes through unchanged); every converted output is 16000 Hz mono; and the
result is a `FormatError` (`None`) exactly when the pass-through does not
apply and the pydub conversion fails. -/
theorem C1_normalizer_amended (f : AudioFile) (s : FS) :
    ((convert_to_wav f s).1 = ConvResult.original →
      f.ext = ".wav" ∧ f.readable = true ∧ f.samplerate = 16000) ∧
    (∀ id, (convert_to_wav f s).1 = ConvResult.temp id →
      resultRate f (ConvResult.temp id) = some 16000 ∧
      resultChannels f (ConvResult.temp id) = some 1) ∧
    ((convert_to_wav f s).1 = ConvResult.failed ↔
      ¬(f.ext = ".wav" ∧ f.readable = true ∧ f.samplerate = 16000) ∧
        f.convertible = false) := by
  unfold convert_to_wav
  by_cases h : f.ext = ".wav" ∧ f.readable = true ∧ f.samplerate = 16000
  · rw [if_pos h]
    refine ⟨fun _ => h, ?_, ?_⟩
    · intro id hid
      simp at hid
    · constructor
      · intro hf
        simp at hf
      · rintro ⟨hn, _⟩
        exact absurd h hn
  · rw [if_neg h]
    rcases hc : f.convertible with _ | _
    · simp only [Bool.false_eq_true, if_false]
      refine ⟨?_, ?_, ?_⟩
      · intro hx
        simp at hx
      · intro id hx
        simp at hx
      · simp [hc, h]
    · simp only [if_true]
      refine ⟨?_, ?_, ?_⟩
      · intro hx
        simp at hx
      · intro id _
        exact ⟨rfl, rfl⟩
      · simp [hc]

/-- Witness for C1 (amended), at a 44.1 kHz stereo mp3 that pydub can
convert: the converted output is 16000 Hz mono. -/
theorem C1_normalizer_amended_witness :
    resultRate ⟨".mp3", true, 44100, 2, 10, true⟩ (ConvResult.temp 0) = some 16000 ∧
    resultChannels ⟨".mp3", true, 44100, 2, 10, true⟩ (ConvResult.temp 0) = some 1 :=
  (C1_normalizer_amended ⟨".mp3", true, 44100, 2, 10, true⟩ fs0).2.1 0 (by decide)

/-- C9: for every language outside {"Chinese", "English"}, `asr_recognize`
selects the default English model id `dev_pid = 1737`, and any recognition
request it POSTs for that language carries that id — the selection is a pure
function of the language, so any two calls with the same language use the
same `dev_pid`. -/
theorem C9_default_devpid (language : String) (f : AudioFile) (env : AsrEnv)
    (s : FS) (h1 : language ≠ "Chinese") (h2 : language ≠ "English") :
    asrDevPid language = 1737 ∧
    ∀ req, (asr_recognize f language env s).request = some req →
      req.devPid = 1737 := by
  have hd : asrDevPid language = 1737 := by
    unfold asrDevPid
    rw [if_neg h1, if_neg h2]
  refine ⟨hd, fun req hreq => ?_⟩
  rcases asr_request_cases f language env s with hN | hS
  · rw [hN] at hreq
    cases hreq
  · rw [hS] at hreq
    cases hreq
    simp [asrRequest, hd]

/-- Witness for C9, at language "Japanese" with a successful concrete call. -/
theorem C9_default_devpid_witness :
    ("Japanese" ≠ "Chinese") ∧ ("Japanese" ≠ "English") ∧
    asrDevPid "Japanese" = 1737 ∧ (asrRequest "Japanese").devPid = 1737 :=
  ⟨by decide, by decide,
    (C9_default_devpid "Japanese" ⟨".wav", true, 16000, 1, 5, true⟩
        ⟨true, true, AsrNet.ok "hello"⟩ fs0 (by decide) (by decide)).1,
    (C9_default_devpid "Japanese" ⟨".wav", true, 16000, 1, 5, true⟩
        ⟨true, true, AsrNet.ok "hello"⟩ fs0 (by decide) (by decide)).2
      (asrRequest "Japanese") (by decide)⟩

/-- The possible call lists of the Baidu synthesis path: the token call
alone (token failure), or the token call followed by the `text2audio` POST. -/
lemma baidu_calls (text : String) (spd pit vol per : Int) (language : String)
    (env : TtsEnv) :
    (baidu_tts_synthesize text spd pit vol per language env).calls =
        [TtsCall.baiduToken] ∨
    (baidu_tts_synthesize text spd pit vol per language env).calls =
        [TtsCall.baiduToken, TtsCall.baiduTts (baiduLan language) text] := by
  unfold baidu_tts_synthesize
  split
  · exact Or.inl rfl
  · split
    · exact Or.inr rfl
    · exact Or.inr rfl

/-- C2: when the target language is Chinese (so the resolved language code is
`zh`), `volcano_tts_synthesize` delegates to the Baidu `tts_synthesize` path:
the call is literally the Baidu path with the converted speed/pitch
parameters, no call reaches the Volcano endpoint, the Baidu provider is
invoked, and the same holds when entering through `tts_synthesize` with the
nominal engine choice `"volcano"`. -/
theorem C2_chinese_delegates_to_baidu (text : String) (voiceType : Option String)
    (speed pitch : ℚ) (env : TtsEnv) (h : pyStrip text ≠ "") :
    volcano_tts_synthesize text "Chinese" voiceType speed pitch env =
      baidu_tts_synthesize text (pyInt (speed * 5)) (pyInt (pitch * 5)) 15 0
        "Chinese" env ∧
    ((volcano_tts_synthesize text "Chinese" voiceType speed pitch env).calls.all
      (fun c => !(isVolcanoCall c))) = true ∧
    TtsCall.baiduToken ∈
      (volcano_tts_synthesize text "Chinese" voiceType speed pitch env).calls ∧
    tts_synthesize text 5 5 5 0 "volcano" "Chinese" voiceType speed pitch env =
      volcano_tts_synthesize text "Chinese" voiceType speed pitch env := by
  have hd : volcano_tts_synthesize text "Chinese" voiceType speed pitch env =
      baidu_tts_synthesize text (pyInt (speed * 5)) (pyInt (pitch * 5)) 15 0
        "Chinese" env := by
    unfold volcano_tts_synthesize
    rw [if_neg h]
    rfl
  refine ⟨hd, ?_, ?_, rfl⟩
  · rw [hd]
    rcases baidu_calls text (pyInt (speed * 5)) (pyInt (pitch * 5)) 15 0
        "Chinese" env with hcl | hcl <;> rw [hcl] <;> rfl
  · rw [hd]
    rcases baidu_calls text (pyInt (speed * 5)) (pyInt (pitch * 5)) 15 0
        "Chinese" env with hcl | hcl <;> rw [hcl]
    · exact List.mem_singleton.mpr rfl
    · exact List.mem_cons_self _ _

/-- Witness for C2, at the concrete text "你好". -/
theorem C2_chinese_delegates_to_baidu_witness :
    pyStrip "你好" ≠ "" ∧
    (volcano_tts_synthesize "你好" "Chinese" none 1 1 ⟨true, true, true⟩ =
      baidu_tts_synthesize "你好" (pyInt (1 * 5)) (pyInt (1 * 5)) 15 0
        "Chinese" ⟨true, true, true⟩ ∧
    ((volcano_tts_synthesize "你好" "Chinese" none 1 1 ⟨true, true, true⟩).calls.all
      (fun c => !(isVolcanoCall c))) = true ∧
    TtsCall.baiduToken ∈
      (volcano_tts_synthesize "你好" "Chinese" none 1 1 ⟨true, true, true⟩).calls ∧
    tts_synthesize "你好" 5 5 5 0 "volcano" "Chinese" none 1 1 ⟨true, true, true⟩ =
      volcano_tts_synthesize "你好" "Chinese" none 1 1 ⟨true, true, true⟩) :=
  ⟨by decide, C2_chinese_delegates_to_baidu "你好" none 1 1 ⟨true, true, true⟩ (by decide)⟩

/-- C3: `send_chat_request` is a total function into structured results (the
embedding has no escaping-exception variant because every branch of the
source returns a dict), and on any non-200 or exception outcome the reply is
one of two fixed non-empty apology strings, independent of the message,
history and model arguments, so the caller always receives a non-empty
reply. -/
theorem C3_chat_fallback (message : String) (history : Hist) (loraPath : String)
    (net : ChatNet) (h : isOkNet net = false) :
    (send_chat_request message history loraPath net).reply ≠ none ∧
    (send_chat_request message history loraPath net).reply ≠ some "" ∧
    ((send_chat_request message history loraPath net).reply = some apologyHttp ∨
      (send_chat_request message history loraPath net).reply = some apologyExn) ∧
    (send_chat_request message history loraPath net).history = history ∧
    (send_chat_request message history loraPath net).loraPath = loraPath ∧
    ∀ m2 h2 lp2, (send_chat_request m2 h2 lp2 net).reply =
      (send_chat_request message history loraPath net).reply := by
  cases net with
  | ok body => simp [isOkNet] at h
  | okBadJson =>
      exact ⟨by simp [send_chat_request], by simp [send_chat_request, apologyExn],
        Or.inr rfl, rfl, rfl, fun _ _ _ => rfl⟩
  | httpError =>
      exact ⟨by simp [send_chat_request], by simp [send_chat_request, apologyHttp],
        Or.inl rfl, rfl, rfl, fun _ _ _ => rfl⟩
  | exn =>
      exact ⟨by simp [send_chat_request], by simp [send_chat_request, apologyExn],
        Or.inr rfl, rfl, rfl, fun _ _ _ => rfl⟩

/-- Witness for C3 at a concrete unreachable-endpoint outcome. -/
theorem C3_chat_fallback_witness :
    isOkNet ChatNet.exn = false ∧
    ((send_chat_request "Hello" [] "estj" ChatNet.exn).reply ≠ none ∧
    (send_chat_request "Hello" [] "estj" ChatNet.exn).reply ≠ some "" ∧
    ((send_chat_request "Hello" [] "estj" ChatNet.exn).reply = some apologyHttp ∨
      (send_chat_request "Hello" [] "estj" ChatNet.exn).reply = some apologyExn) ∧
    (send_chat_request "Hello" [] "estj" ChatNet.exn).history = [] ∧
    (send_chat_request "Hello" [] "estj" ChatNet.exn).loraPath = "estj" ∧
    ∀ m2 h2 lp2, (send_chat_request m2 h2 lp2 ChatNet.exn).reply =
      (send_chat_request "Hello" [] "estj" ChatNet.exn).reply) :=
  ⟨rfl, C3_chat_fallback "Hello" [] "estj" ChatNet.exn rfl⟩

/-- C5: the claim states that for empty-after-trimming text both engine
choices of `tts_synthesize` return `None` without any network call.
Counterexample: with the Baidu engine choice and empty text the token
endpoint is called (and, under an `audio/*` response, the result is not even
`None`) — there is no empty-text guard on the Baidu path (audio_service.py
lines 198-236). -/
theorem C5_counterexample :
    (tts_synthesize "" 5 5 5 0 "baidu" "English" none 1 1 ⟨true, true, true⟩).calls ≠ [] ∧
    TtsCall.baiduToken ∈
      (tts_synthesize "" 5 5 5 0 "baidu" "English" none 1 1 ⟨true, true, true⟩).calls ∧
    (tts_synthesize "" 5 5 5 0 "baidu" "English" none 1 1 ⟨true, true, true⟩).result ≠ none := by
  decide

/-- C5 (amended): the empty-text guard exists only on the Volcano engine
path — there `tts_synthesize` returns `None` with no network call — while
the Baidu engine path always performs the token network call regardless of
the text. -/
theorem C5_amended (text : String) (spd pit vol per : Int) (language : String)
    (voiceType : Option String) (speed pitch : ℚ) (env : TtsEnv)
    (h : pyStrip text = "") :
    tts_synthesize text spd pit vol per "volcano" language voiceType speed pitch env =
      ⟨none, []⟩ ∧
    TtsCall.baiduToken ∈
      (tts_synthesize text spd pit vol per "baidu" language voiceType speed pitch env).calls := by
  constructor
  · show volcano_tts_synthesize text language voiceType speed pitch env = _
    unfold volcano_tts_synthesize
    rw [if_pos h]
  · show TtsCall.baiduToken ∈
      (baidu_tts_synthesize text spd pit vol per language env).calls
    rcases baidu_calls text spd pit vol per language env with hcl | hcl <;> rw [hcl]
    · exact List.mem_singleton.mpr rfl
    · exact List.mem_cons_self _ _

/-- Witness for C5 (amended) at whitespace-only text. -/
theorem C5_amended_witness :
    pyStrip " " = "" ∧
    (tts_synthesize " " 5 5 5 0 "volcano" "English" none 1 1 ⟨true, true, true⟩ =
      ⟨none, []⟩ ∧
    TtsCall.baiduToken ∈
      (tts_synthesize " " 5 5 5 0 "baidu" "English" none 1 1 ⟨true, true, true⟩).calls) :=
  ⟨by decide, C5_amended " " 5 5 5 0 "English" none 1 1 ⟨true, true, true⟩ (by decide)⟩

/-- C4: the claim states that every Transcription-Client failure value is
recognized by the Orchestrator as a member of one closed set and
short-circuits the turn before the Dialogue Client in both `handle_chat` and
`handle_upload`.  Counterexample: the failure value
"Speech recognition request timeout" is a possible `asr_recognize` return,
but `handle_upload`'s check (app.py line 419) does not match it, so the turn
proceeds and the Dialogue Client is called with the error string as the
message. -/
theorem C4_counterexample :
    (asr_recognize ⟨".wav", true, 16000, 1, 5, true⟩ "English"
        ⟨true, true, AsrNet.timeout⟩ fs0).result =
      "Speech recognition request timeout" ∧
    "Speech recognition request timeout" ∈ asrFailureStrings ∧
    uploadAsrFailed "Speech recognition request timeout" = false ∧
    (handle_upload (some ⟨".wav", true, 16000, 1, 5, true⟩) [] "estj"
        "Standard Voice" "English" "English"
        ⟨⟨true, true, AsrNet.timeout⟩, false, "", ChatNet.ok ⟨some "ok", [], "estj"⟩,
          ⟨true, true, true⟩, true, true, true, 16000, 10⟩).dialogueCall ≠ none := by
  decide

/-- C4 (amended): every value the Transcription Client can return is either
the network transcript or a member of the closed set `asrFailureStrings`;
`handle_chat`'s audio path checks the full set and short-circuits before the
Dialogue Client on every failure string; but `handle_upload` recognizes only
the subset matched by `uploadAsrFailed` (empty, "Speech recognition failed",
"Speech recognition request failed", "Unable to get Baidu access token") —
its turn reaches the Dialogue Client exactly when that narrower check
fails. -/
theorem C4_amended (f : AudioFile) (history : Hist)
    (loraPath ttsChoice replyLang asrLang : String) (env : OrchEnv) :
    ((asr_recognize f asrLang env.asr fs0).result ∈ asrFailureStrings ∨
      ∃ t, env.asr.net = AsrNet.ok t ∧
        (asr_recognize f asrLang env.asr fs0).result = t) ∧
    ((asr_recognize f asrLang env.asr fs0).result ∈ asrFailureStrings →
      (handleChatAsrBranch f history loraPath ttsChoice replyLang asrLang
        env).dialogueCall = none) ∧
    ((handle_upload (some f) history loraPath ttsChoice replyLang asrLang
        env).dialogueCall = none ↔
      uploadAsrFailed (asr_recognize f asrLang env.asr fs0).result = true) := by
  refine ⟨asr_result_cases f asrLang env.asr fs0, ?_, ?_⟩
  · intro hmem
    unfold handleChatAsrBranch
    rw [if_pos (Or.inr (failure_mem_chat_errors _ hmem))]
  · by_cases hU : uploadAsrFailed (asr_recognize f asrLang env.asr fs0).result = true
    · rw [handle_upload_failed f history loraPath ttsChoice replyLang asrLang env hU]
      simp [hU]
    · simp only [Bool.not_eq_true] at hU
      rw [handle_upload_ok f history loraPath ttsChoice replyLang asrLang env hU]
      simp [hU]

/-- Witness for C4 (amended): a provider-rejected recognition outcome
short-circuits `handle_chat`'s audio path, and (since `uploadAsrFailed`
matches this particular string) also `handle_upload`. -/
theorem C4_amended_witness :
    (asr_recognize ⟨".wav", true, 16000, 1, 5, true⟩ "English"
        ⟨true, true, AsrNet.providerRejected⟩ fs0).result ∈ asrFailureStrings ∧
    (handleChatAsrBranch ⟨".wav", true, 16000, 1, 5, true⟩ [] "estj"
        "Standard Voice" "English" "English"
        ⟨⟨true, true, AsrNet.providerRejected⟩, false, "",
          ChatNet.ok ⟨some "ok", [], "estj"⟩, ⟨true, true, true⟩,
          true, true, true, 16000, 10⟩).dialogueCall = none :=
  ⟨by decide,
    (C4_amended ⟨".wav", true, 16000, 1, 5, true⟩ [] "estj" "Standard Voice"
        "English" "English"
        ⟨⟨true, true, AsrNet.providerRejected⟩, false, "",
          ChatNet.ok ⟨some "ok", [], "estj"⟩, ⟨true, true, true⟩,
          true, true, true, 16000, 10⟩).2.1 (by decide)⟩

/-- C6: the claim states that every intermediate temporary file allocated on
the Audio Normalizer path is deleted before the call returns, on success and
on every failure path.  Counterexample: (a) when the pydub conversion fails,
`convert_to_wav` has already allocated its temporary file and returns `None`
without deleting it; (b) when reading the converted file fails,
`asr_recognize` returns early (audio_service.py line 100) before the cleanup
at line 105, leaving the temporary file live. -/
theorem C6_counterexample :
    ((convert_to_wav ⟨".mp3", true, 44100, 1, 10, false⟩ fs0).1 = ConvResult.failed ∧
      ((convert_to_wav ⟨".mp3", true, 44100, 1, 10, false⟩ fs0).2).live = [0]) ∧
    ((asr_recognize ⟨".mp3", true, 44100, 1, 10, true⟩ "English"
        ⟨true, false, AsrNet.ok "x"⟩ fs0).result = "Failed to read audio file" ∧
      ((asr_recognize ⟨".mp3", true, 44100, 1, 10, true⟩ "English"
        ⟨true, false, AsrNet.ok "x"⟩ fs0).fs).live = [0]) := by
  decide

/-- C6 (amended): temporary-file cleanup does hold on the paths that reach
it — whenever the pydub conversion succeeds and the converted file can be
read, `asr_recognize` leaves the set of live temporary files unchanged, and
`asr_recognize_from_numpy` additionally always deletes its own temporary
file (its `finally` block), for any write outcome; but a conversion failure
or a read failure leaks the conversion temp file (see the
counterexample). -/
theorem C6_cleanup_amended (f : AudioFile) (a : NumpyAudio) (language : String)
    (env : AsrEnv) (w : Bool) (s : FS)
    (hs : s.wf = true) (hr : env.readOk = true) (hc : f.convertible = true) :
    ((asr_recognize f language env s).fs).live = s.live ∧
    ((asr_recognize_from_numpy a language w env s).fs).live = s.live := by
  refine ⟨asr_live_eq f language env s hs hr hc, ?_⟩
  unfold asr_recognize_from_numpy
  rcases w with _ | _
  · show (((s.alloc).2).unlink (s.alloc).1).live = s.live
    exact unlink_alloc_live s hs
  · show ((asr_recognize
        { ext := ".wav", readable := true, samplerate := a.rate,
          channels := a.channels, numSamples := a.numSamples, convertible := true }
        language env (s.alloc).2).fs.unlink (s.alloc).1).live = s.live
    have hin := asr_live_eq
      { ext := ".wav", readable := true, samplerate := a.rate,
        channels := a.channels, numSamples := a.numSamples, convertible := true }
      language env (s.alloc).2 (wf_alloc s hs) hr rfl
    show (asr_recognize
        { ext := ".wav", readable := true, samplerate := a.rate,
          channels := a.channels, numSamples := a.numSamples, convertible := true }
        language env (s.alloc).2).fs.live.filter (fun x => decide (x ≠ (s.alloc).1))
      = s.live
    rw [hin]
    exact filter_append_singleton s hs

/-- Witness for C6 (amended) at a concrete conversion-and-read success. -/
theorem C6_cleanup_amended_witness :
    (fs0.wf = true) ∧
    ((asr_recognize ⟨".mp3", true, 44100, 2, 10, true⟩ "English"
        ⟨true, true, AsrNet.ok "hi"⟩ fs0).fs).live = fs0.live ∧
    ((asr_recognize_from_numpy ⟨44100, 1, 10⟩ "English" true
        ⟨true, true, AsrNet.ok "hi"⟩ fs0).fs).live = fs0.live :=
  ⟨rfl, C6_cleanup_amended ⟨".mp3", true, 44100, 2, 10, true⟩ ⟨44100, 1, 10⟩
    "English" ⟨true, true, AsrNet.ok "hi"⟩ true fs0 rfl rfl rfl⟩

/-- C7: invariant on the committed session history.  The history sent to the
Dialogue Client by either entry point is always the input history with the
reply-less entries filtered out (so every sent entry has a reply), and if
every entry of the input history has a non-empty user text and a present
reply, then so does every entry of the session history returned by
`handle_chat` and by `handle_upload` — only the display history ever holds a
pending `None` reply. -/
theorem C7_history_invariant (message : Option String) (file : Option AudioFile)
    (history : Hist) (audio : Option AudioArg)
    (loraPath ttsChoice uTtsChoice replyLang uAsrLang : String)
    (asrLang : Option String) (env : OrchEnv)
    (hw : wellFormedHist history = true) :
    wellFormedHist (handle_chat message history audio loraPath ttsChoice
      replyLang asrLang env).session = true ∧
    wellFormedHist (uploadSession (handle_upload file history loraPath
      uTtsChoice replyLang uAsrLang env).ret) = true ∧
    (∀ p hsent, (handle_chat message history audio loraPath ttsChoice replyLang
        asrLang env).dialogueCall = some (p, hsent) →
      hsent = committedPairs history ∧ ∀ q ∈ hsent, q.2.isSome = true) ∧
    (∀ p hsent, (handle_upload file history loraPath uTtsChoice replyLang
        uAsrLang env).dialogueCall = some (p, hsent) →
      hsent = committedPairs history ∧ ∀ q ∈ hsent, q.2.isSome = true) := by
  refine ⟨?_, ?_, ?_, ?_⟩
  · rcases handle_chat_cases message history audio loraPath ttsChoice replyLang
        asrLang env with ⟨hS, _⟩ | ⟨m, r, hm, hS, _⟩
    · rw [hS]
      exact hw
    · rw [hS]
      exact wellFormedHist_append _ _ _ (committedPairs_wf history hw) hm rfl
  · match file with
    | none => exact hw
    | some f =>
        by_cases hU : uploadAsrFailed
            (asr_recognize f uAsrLang env.asr fs0).result = true
        · rw [handle_upload_failed f history loraPath uTtsChoice replyLang
            uAsrLang env hU]
          exact hw
        · simp only [Bool.not_eq_true] at hU
          rw [handle_upload_ok f history loraPath uTtsChoice replyLang
            uAsrLang env hU]
          exact wellFormedHist_append _ _ _ (committedPairs_wf history hw)
            (uploadAsrFailed_false_ne _ hU) rfl
  · intro p hsent hdc
    rcases handle_chat_cases message history audio loraPath ttsChoice replyLang
        asrLang env with ⟨_, hN⟩ | ⟨m, r, _, _, hD⟩
    · rw [hN] at hdc
      cases hdc
    · rw [hD] at hdc
      injection hdc with h1
      rw [Prod.mk.injEq] at h1
      obtain ⟨_, hh⟩ := h1
      refine ⟨hh.symm, ?_⟩
      rw [← hh]
      exact committedPairs_all_some history
  · intro p hsent hdc
    match file with
    | none => cases hdc
    | some f =>
        by_cases hU : uploadAsrFailed
            (asr_recognize f uAsrLang env.asr fs0).result = true
        · rw [handle_upload_failed f history loraPath uTtsChoice replyLang
            uAsrLang env hU] at hdc
          cases hdc
        · simp only [Bool.not_eq_true] at hU
          rw [handle_upload_ok f history loraPath uTtsChoice replyLang
            uAsrLang env hU] at hdc
          injection hdc with h1
          rw [Prod.mk.injEq] at h1
          obtain ⟨_, hh⟩ := h1
          refine ⟨hh.symm, ?_⟩
          rw [← hh]
          exact committedPairs_all_some history

/-- Witness for C7 on a concrete well-formed history and text turn. -/
theorem C7_history_invariant_witness :
    wellFormedHist [("hi", some "yo")] = true ∧
    wellFormedHist (handle_chat (some "Hello") [("hi", some "yo")] none "estj"
      "Standard Voice" "English" none
      ⟨⟨true, true, AsrNet.ok "t"⟩, false, "", ChatNet.ok ⟨some "ok", [], "estj"⟩,
        ⟨true, true, true⟩, true, true, true, 16000, 10⟩).session = true :=
  ⟨by decide,
    (C7_history_invariant (some "Hello") none [("hi", some "yo")] none "estj"
      "Standard Voice" "Standard Voice" "English" "English" none
      ⟨⟨true, true, AsrNet.ok "t"⟩, false, "", ChatNet.ok ⟨some "ok", [], "estj"⟩,
        ⟨true, true, true⟩, true, true, true, 16000, 10⟩ (by decide)).1⟩

/-- C8: a completed text turn's returned session history is exactly the
committed pairs of the input history with the single new pair
`(message, reply)` appended, and re-submitting the identical message with
the returned history appends a further pair — turns are never merged,
deduplicated or reordered. -/
theorem C8_append_turn (m : String) (history : Hist)
    (loraPath ttsChoice replyLang : String) (env : OrchEnv)
    (h : pyStrip m ≠ "") :
    (handle_chat (some m) history none loraPath ttsChoice replyLang none
        env).session =
      committedPairs history ++
        [(m, some (chatReply m history loraPath replyLang env))] ∧
    (handle_chat (some m)
        (handle_chat (some m) history none loraPath ttsChoice replyLang none
          env).session none loraPath ttsChoice replyLang none env).session =
      (handle_chat (some m) history none loraPath ttsChoice replyLang none
          env).session ++
        [(m, some (chatReply m
          (handle_chat (some m) history none loraPath ttsChoice replyLang none
            env).session loraPath replyLang env))] := by
  rw [handle_chat_some, handleChatCore_done m history loraPath ttsChoice
    replyLang env h]
  constructor
  · rfl
  · rw [handle_chat_some, handleChatCore_done _ _ _ _ _ _ h]
    show committedPairs (committedPairs history ++
        [(m, some (chatReply m history loraPath replyLang env))]) ++ _ = _
    rw [committedPairs_append_some, committedPairs_idem]

/-- Witness for C8: submitting "Hello" over a history with one committed and
one pending entry appends exactly one new committed pair. -/
theorem C8_append_turn_witness :
    pyStrip "Hello" ≠ "" ∧
    (handle_chat (some "Hello") [("a", some "b"), ("c", none)] none "estj"
      "Standard Voice" "English" none
      ⟨⟨true, true, AsrNet.ok "t"⟩, false, "",
        ChatNet.ok ⟨some "Hi there!", [], "estj"⟩,
        ⟨true, true, true⟩, true, true, true, 16000, 10⟩).session =
      [("a", some "b"), ("Hello", some "Hi there!")] :=
  ⟨by decide, by
    rw [(C8_append_turn "Hello" [("a", some "b"), ("c", none)] "estj"
      "Standard Voice" "English"
      ⟨⟨true, true, AsrNet.ok "t"⟩, false, "",
        ChatNet.ok ⟨some "Hi there!", [], "estj"⟩,
        ⟨true, true, true⟩, true, true, true, 16000, 10⟩ (by decide)).1]
    decide⟩

/-- C10: `handle_upload` does not return a uniform shape — it returns the
2-tuple `(history, history)` when the uploaded file is `None`, a 2-tuple
`(history + retry row, history)` when its recognition check fires, and only
on the success path the declared 4-tuple
`(display history, session history, audio value, "")`. -/
theorem C10_upload_shapes (file : Option AudioFile) (history : Hist)
    (loraPath ttsChoice replyLang asrLang : String) (env : OrchEnv) :
    (file = none →
      (handle_upload file history loraPath ttsChoice replyLang asrLang env).ret =
        UploadShape.pair2 history history) ∧
    ∀ f, file = some f →
      (uploadAsrFailed (asr_recognize f asrLang env.asr fs0).result = true →
        (handle_upload file history loraPath ttsChoice replyLang asrLang env).ret =
          UploadShape.pair2
            (history ++
              [(uploadAudioHtml, some "Speech recognition failed, please try again")])
            history) ∧
      (uploadAsrFailed (asr_recognize f asrLang env.asr fs0).result = false →
        ∃ d sess av,
          (handle_upload file history loraPath ttsChoice replyLang asrLang env).ret =
            UploadShape.quad d sess av "") := by
  constructor
  · intro hf
    subst hf
    rfl
  · intro f hf
    subst hf
    constructor
    · intro hU
      rw [handle_upload_failed f history loraPath ttsChoice replyLang asrLang env hU]
    · intro hU
      rw [handle_upload_ok f history loraPath ttsChoice replyLang asrLang env hU]
      exact ⟨_, _, _, rfl⟩

/-- Witness for C10: the `None`-file 2-tuple and a concrete success-path
4-tuple. -/
theorem C10_upload_shapes_witness :
    (handle_upload none [] "estj" "Standard Voice" "English" "English"
      ⟨⟨true, true, AsrNet.ok "t"⟩, false, "", ChatNet.ok ⟨some "ok", [], "estj"⟩,
        ⟨true, true, true⟩, true, true, true, 16000, 10⟩).ret =
      UploadShape.pair2 [] [] ∧
    ∃ d sess av,
      (handle_upload (some ⟨".wav", true, 16000, 1, 5, true⟩) [] "estj"
        "Standard Voice" "English" "English"
        ⟨⟨true, true, AsrNet.ok "t"⟩, false, "", ChatNet.ok ⟨some "ok", [], "estj"⟩,
          ⟨true, true, true⟩, true, true, true, 16000, 10⟩).ret =
        UploadShape.quad d sess av "" :=
  ⟨(C10_upload_shapes none [] "estj" "Standard Voice" "English" "English"
      ⟨⟨true, true, AsrNet.ok "t"⟩, false, "", ChatNet.ok ⟨some "ok", [], "estj"⟩,
        ⟨true, true, true⟩, true, true, true, 16000, 10⟩).1 rfl,
    ((C10_upload_shapes (some ⟨".wav", true, 16000, 1, 5, true⟩) [] "estj"
      "Standard Voice" "English" "English"
      ⟨⟨true, true, AsrNet.ok "t"⟩, false, "", ChatNet.ok ⟨some "ok", [], "estj"⟩,
        ⟨true, true, true⟩, true, true, true, 16000, 10⟩).2
      ⟨".wav", true, 16000, 1, 5, true⟩ rfl).2 (by decide)⟩

end XaiMbti
